import Mathlib

/-!
Shallow embedding of src/detection.py (reclaim-backend): a FastAPI app with
two endpoints, POST /detect and POST /analyze, that relay requests to the
Gemini SDK and pass its JSON reply through.

External effects (the SDK calls, json.loads, os.unlink, the staging copy)
are modelled by oracle fields of an environment record; the handler bodies
are translated statement by statement from the source file.
-/

/-- JSON values as produced by Python json.loads. Numbers are collapsed to
Int: no claim computes with numeric values, they are only passed through. -/
inductive Json where
  | null
  | bool (b : Bool)
  | num (n : Int)
  | str (s : String)
  | arr (items : List Json)
  | obj (fields : List (String × Json))

/-- Whether a parsed JSON value is an object carrying the key k. -/
def Json.hasKey (j : Json) (k : String) : Bool :=
  match j with
  | .obj fields => fields.any (fun p => p.1 == k)
  | _ => false

/-- An HTTP response produced inside one of the handlers: a status code and
a JSON body (a fastapi.responses.JSONResponse). -/
structure Response where
  status : Nat
  body : Json

/-- How a request handler terminates: with a JSONResponse it built itself,
or with an exception escaping the handler body (which the framework then
reports without any JSON error body coming from the handler). -/
inductive HandlerOutcome where
  | response (r : Response)
  | raised (e : String)

/-- The body of the 500 error responses the handlers build:
JSONResponse(status_code=500, content=\x7b"error": msg\x7d). -/
def errBody (msg : String) : Json :=
  Json.obj [("error", Json.str msg)]

/-- State of the staged temporary file over one /detect request: whether the
file currently exists, how many times it was successfully deleted, and how
many times os.unlink was invoked on its path. -/
structure FsState where
  tempExists : Bool
  removals : Nat
  unlinkCalls : Nat

/-- Oracle for the effectful steps of one /detect request.  Each field is
the outcome of one call the handler makes:
stageError - shutil.copyfileobj into the temp file raising (line 48,
  e.g. the client stream breaking or the disk filling up);
uploadError - genai.upload_file raising (line 53, via upload_to_gemini);
generateError - model.generate_content raising (line 75);
textError - the response.text accessor raising (line 82, the SDK raises
  ValueError when the reply carries no text part; this is not a
  json.JSONDecodeError so the inner except does not catch it);
responseText - the value of response.text when it does not raise;
jsonLoads - json.loads: some parsed on success, none for JSONDecodeError;
unlinkOutcome n - outcome of the n-th os.unlink call made on the temp path
  while the file exists: none means the OS deletes it, some e means unlink
  raises OSError e (permission, I/O error, ...). -/
structure DetectEnv where
  stageError : Option String
  uploadError : Option String
  generateError : Option String
  textError : Option String
  responseText : String
  jsonLoads : String → Option Json
  unlinkOutcome : Nat → Option String

/-- os.unlink(temp_path): deletes the file when it exists and the OS call
succeeds; raises OSError per the oracle when the OS call fails; raises
FileNotFoundError deterministically when the file no longer exists. -/
def osUnlink (env : DetectEnv) (fs : FsState) : Option String × FsState :=
  if fs.tempExists then
    match env.unlinkOutcome fs.unlinkCalls with
    | none => (none, ⟨false, fs.removals + 1, fs.unlinkCalls + 1⟩)
    | some e => (some e, ⟨true, fs.removals, fs.unlinkCalls + 1⟩)
  else
    (some "FileNotFoundError: [Errno 2] No such file or directory",
     ⟨false, fs.removals, fs.unlinkCalls + 1⟩)

/-- Result of one /detect request: how the handler terminated, plus the
final state of the staged temporary file. -/
structure DetectRun where
  outcome : HandlerOutcome
  fs : FsState

/-- Lines 88-91, the handler's `except Exception as e` block: it runs
os.unlink(temp_path) again and then returns 500 with \x7b"error": str(e)\x7d.
An exception raised by this second unlink escapes the handler. -/
def detectExcept (env : DetectEnv) (e : String) (fs : FsState) : DetectRun :=
  match osUnlink env fs with
  | (some e2, fs2) => ⟨HandlerOutcome.raised e2, fs2⟩
  | (none, fs2) => ⟨HandlerOutcome.response ⟨500, errBody e⟩, fs2⟩

/-- Lines 44-91, the POST /detect handler detect_object, statement by
statement.  NamedTemporaryFile(delete=False) creates the temp file (so the
initial state has tempExists = true); copyfileobj runs before the try, so
an exception there escapes the handler with the file still on disk.  Inside
the try: upload, generate, os.unlink (line 78), then json.loads of
response.text with only JSONDecodeError handled locally (lines 81-85); any
other exception falls to detectExcept.  The two fixed prompt literals are
not observable through any response, so they are not carried here. -/
def detect_object (env : DetectEnv) : DetectRun :=
  let fs0 : FsState := ⟨true, 0, 0⟩
  match env.stageError with
  | some e => ⟨HandlerOutcome.raised e, fs0⟩
  | none =>
    match env.uploadError with
    | some e => detectExcept env e fs0
    | none =>
      match env.generateError with
      | some e => detectExcept env e fs0
      | none =>
        match osUnlink env fs0 with
        | (some e, fs1) => detectExcept env e fs1
        | (none, fs1) =>
          match env.textError with
          | some e => detectExcept env e fs1
          | none =>
            match env.jsonLoads env.responseText with
            | some j => ⟨HandlerOutcome.response ⟨200, j⟩, fs1⟩
            | none =>
              ⟨HandlerOutcome.response
                 ⟨500, errBody "Invalid JSON format in response"⟩, fs1⟩

mutual

/-- Python repr() restricted to values json.loads can produce (string
escaping inside repr is not modelled; no claim observes it). -/
def pyRepr : Json → String
  | Json.null => "None"
  | Json.bool true => "True"
  | Json.bool false => "False"
  | Json.num n => toString n
  | Json.str s => "\x27" ++ s ++ "\x27"
  | Json.arr items => "[" ++ pyReprList items ++ "]"
  | Json.obj fields => "\x7b" ++ pyReprFields fields ++ "\x7d"

/-- Comma-separated reprs of the items of a list value. -/
def pyReprList : List Json → String
  | [] => ""
  | [x] => pyRepr x
  | x :: y :: xs => pyRepr x ++ ", " ++ pyReprList (y :: xs)

/-- Comma-separated key: value reprs of the entries of a dict value. -/
def pyReprFields : List (String × Json) → String
  | [] => ""
  | [(k, v)] => "\x27" ++ k ++ "\x27: " ++ pyRepr v
  | (k, v) :: y :: xs => "\x27" ++ k ++ "\x27: " ++ pyRepr v ++ ", " ++ pyReprFields (y :: xs)

end

/-- Python str() of a value json.loads can produce, as used when the
f-string formats object_data["object"] into the prompt. -/
def pyStr : Json → String
  | Json.str s => s
  | v => pyRepr v

/-- Items handed to str.join when iterating a Python list: every item must
itself be a str, otherwise join raises TypeError at the first offender. -/
def joinStrList : List Json → Nat → Except String (List String)
  | [], _ => Except.ok []
  | Json.str s :: xs, i =>
      (joinStrList xs (i + 1)).map (fun rest => s :: rest)
  | _ :: _, i =>
      Except.error ("TypeError: sequence item " ++ toString i ++ ": expected str instance")

/-- Python sep.join(v) as applied on line 104 to object_data["materials"]:
iterating a str yields its characters (each a 1-character str), a list must
contain only str items, iterating a dict yields its keys (str in JSON), and
any non-iterable value (number, bool, null) raises TypeError. -/
def pyJoin (sep : String) : Json → Except String String
  | Json.str s =>
      Except.ok (String.intercalate sep (s.data.map (fun c => String.singleton c)))
  | Json.arr items =>
      (joinStrList items 0).map (fun parts => String.intercalate sep parts)
  | Json.obj fields =>
      Except.ok (String.intercalate sep (fields.map (fun p => p.1)))
  | _ => Except.error "TypeError: can only join an iterable"

/-- str(e) for a fastapi (Starlette) HTTPException: status code, colon,
detail text. -/
def strHTTPException (status : Nat) (detail : String) : String :=
  toString status ++ ": " ++ detail

/-- The fixed detail text of the validation failure on line 98. -/
def invalidInputDetail : String :=
  "Invalid input: \x27object\x27 and \x27materials\x27 are required."

/-- Python `k in object_data` for the request-body dict, modelled as an
association list with distinct keys (FastAPI parses the JSON body). -/
def dictHasKey (object_data : List (String × Json)) (k : String) : Bool :=
  object_data.any (fun p => p.1 == k)

/-- Python object_data[k]; only evaluated after the key was checked, so the
fallback value is never observable. -/
def dictGet (object_data : List (String × Json)) (k : String) : Json :=
  match object_data.find? (fun p => p.1 == k) with
  | some p => p.2
  | none => Json.null

/-- Line 97: all(key in object_data for key in ["object", "materials"]). -/
def requiredKeysPresent (object_data : List (String × Json)) : Bool :=
  ["object", "materials"].all (fun k => dictHasKey object_data k)

/-- The f-string template of lines 100-148, line by line; the interpolated
holes are str(object_data["object"]) and ", ".join(object_data["materials"]).
Literal braces and backticks of the template are written as escapes. -/
def analyzePromptLines (objStr joined : String) : List String :=
  [ ""
  , "        Analyze the following object and its materials for environmental impact, recycling, and upcycling:"
  , ""
  , "        Object: " ++ objStr
  , "        Materials: " ++ joined
  , ""
  , "        Provide a JSON response in the following format:"
  , ""
  , "        \x60\x60\x60json"
  , "        \x7b"
  , "          \"environmental_impact\": \x7b"
  , "            \"CO2_emissions\": \"<CO2 emissions per unit if not recycled>\","
  , "            \"hazardous_effects\": ["
  , "              \"<Hazardous effect 1>\","
  , "              \"<Hazardous effect 2>\","
  , "              ..."
  , "            ],"
  , "            \"degradation_time\": \x7b"
  , "              \"<Material 1>\": \"<Degradation time>\","
  , "              \"<Material 2>\": \"<Degradation time>\","
  , "              ..."
  , "            \x7d"
  , "          \x7d,"
  , "          \"recycling\": \x7b"
  , "            \"steps\": ["
  , "              \"<Recycling step 1>\","
  , "              \"<Recycling step 2>\","
  , "              ..."
  , "            ],"
  , "            \"nearby_centers\": ["
  , "              \x7b"
  , "                \"name\": \"<Recycling center name>\","
  , "                \"address\": \"<Recycling center address>\","
  , "                \"contact\": \"<Recycling center contact>\""
  , "              \x7d,"
  , "              ..."
  , "            ]"
  , "          \x7d,"
  , "          \"upcycling\": \x7b"
  , "            \"ideas\": ["
  , "              \"<Upcycling idea 1>\","
  , "              \"<Upcycling idea 2>\","
  , "              ..."
  , "            ]"
  , "          \x7d"
  , "        \x7d"
  , "        \x60\x60\x60"
  , ""
  , "        Ensure the output is a valid JSON string. Do not include any additional text or explanations outside of the JSON structure."
  , "        " ]

/-- The impact-analysis prompt built on lines 100-148. -/
def analyze_prompt (objStr joined : String) : String :=
  String.intercalate "\n" (analyzePromptLines objStr joined)

/-- Oracle for the effectful steps of one /analyze request:
generateError - model.generate_content raising (line 150);
textError - the response.text accessor raising (line 154);
responseText - the value of response.text when it does not raise;
jsonLoads - json.loads: some parsed on success, none for JSONDecodeError. -/
structure AnalyzeEnv where
  generateError : Option String
  textError : Option String
  responseText : String
  jsonLoads : String → Option Json

/-- Result of one /analyze request: the handler's response, and the prompt
handed to model.generate_content if that call was made (none = the upstream
generation call never happened). -/
structure AnalyzeRun where
  response : Response
  promptSent : Option String

/-- Lines 150-158: generate, then json.loads(response.text) with only
JSONDecodeError handled locally; any other exception is caught by the outer
except Exception (line 160) and becomes 500 \x7b"error": str(e)\x7d. -/
def analyzeRest (env : AnalyzeEnv) : Response :=
  match env.generateError with
  | some e => ⟨500, errBody e⟩
  | none =>
    match env.textError with
    | some e => ⟨500, errBody e⟩
    | none =>
      match env.jsonLoads env.responseText with
      | some j => ⟨200, j⟩
      | none => ⟨500, errBody "Invalid JSON format in response"⟩

/-- Lines 93-161, the POST /analyze handler analyze_object, statement by
statement.  The whole body sits in try/except Exception (lines 95, 160); in
particular the HTTPException(status_code=400, detail=...) raised by the
validation on line 98 is itself caught on line 160 and turned into 500 with
\x7b"error": str(e)\x7d, so the handler never returns a 400.  When validation
passes, the f-string evaluates object_data["object"] and
", ".join(object_data["materials"]); a TypeError from the join is likewise
caught on line 160, before any generate call. -/
def analyze_object (object_data : List (String × Json)) (env : AnalyzeEnv) : AnalyzeRun :=
  if !(requiredKeysPresent object_data) then
    ⟨⟨500, errBody (strHTTPException 400 invalidInputDetail)⟩, none⟩
  else
    match pyJoin ", " (dictGet object_data "materials") with
    | Except.error e => ⟨⟨500, errBody e⟩, none⟩
    | Except.ok joined =>
      let prompt := analyze_prompt (pyStr (dictGet object_data "object")) joined
      ⟨analyzeRest env, some prompt⟩

/-- The DetectionResult of the spec scenario: the upstream reply for a
photographed plastic bottle. -/
def bottleJson : Json :=
  Json.obj [("object", Json.str "bottle"), ("materials", Json.arr [Json.str "plastic"])]

/-- A small well-formed nested impact-analysis reply used as a witness. -/
def impactJson : Json :=
  Json.obj [("environmental_impact", Json.obj [("CO2_emissions", Json.str "10kg")]),
            ("recycling", Json.obj [("steps", Json.arr [Json.str "rinse"])]),
            ("upcycling", Json.obj [("ideas", Json.arr [Json.str "vase"])])]

/-- Analyze-side oracle where upstream is never reached (C1). -/
def envC1 : AnalyzeEnv := ⟨none, none, "", fun _ => none⟩

/-- Detect-side oracle where the upstream calls behave but the OS refuses
every unlink of the temp path (C2 counterexample). -/
def envC2cex : DetectEnv :=
  ⟨none, none, none, none, "x", fun _ => none,
   fun _ => some "PermissionError: [Errno 13] Permission denied"⟩

/-- Detect-side oracle where everything succeeds (C2 witness). -/
def envC2w : DetectEnv :=
  ⟨none, none, none, none, "reply", fun _ => some bottleJson, fun _ => none⟩

/-- Detect-side oracle for the spec scenario: upstream returns the bottle
JSON and every OS call succeeds (C3 witness). -/
def envC3w : DetectEnv :=
  ⟨none, none, none, none, "reply", fun _ => some bottleJson, fun _ => none⟩

/-- Detect-side oracle where upstream returns the valid bottle JSON but the
OS refuses the first unlink of the temp path; the retry in the except block
succeeds (C3 counterexample). -/
def envC3cex : DetectEnv :=
  ⟨none, none, none, none, "reply", fun _ => some bottleJson,
   fun n => match n with
     | 0 => some "OSError: [Errno 16] Device or resource busy"
     | _ => none⟩

/-- Analyze-side oracle where upstream returns a well-formed nested reply
(C4 witness). -/
def envC4w : AnalyzeEnv := ⟨none, none, "reply", fun _ => some impactJson⟩

/-- Detect-side oracle where upstream returns text that is not JSON
(C5 witness). -/
def envC5w : DetectEnv :=
  ⟨none, none, none, none, "I am not JSON", fun _ => none, fun _ => none⟩

/-- Detect-side oracle where upstream returns text that is not JSON and the
OS refuses the first unlink of the temp path; the retry in the except block
succeeds (C5 counterexample). -/
def envC5cex : DetectEnv :=
  ⟨none, none, none, none, "I am not JSON either", fun _ => none,
   fun n => match n with
     | 0 => some "OSError: [Errno 30] Read-only file system"
     | _ => none⟩

/-- Detect-side oracle where the reply carries no text part, so the
response.text accessor raises after the temp file is already gone
(C6 counterexample). -/
def envC6cex : DetectEnv :=
  ⟨none, none, none,
   some "ValueError: The response.text quick accessor requires a valid Part",
   "", fun _ => none, fun _ => none⟩

/-- Detect-side oracle where the upstream upload raises (C6 witness). -/
def envC6w : DetectEnv :=
  ⟨none, some "ServiceUnavailable: 503 failed to connect to the service",
   none, none, "", fun _ => none, fun _ => none⟩

/-- Detect-side oracle where the first unlink raises and the retry in the
except block succeeds (C7 counterexample). -/
def envC7cex : DetectEnv :=
  ⟨none, none, none, none, "reply", fun _ => some bottleJson,
   fun n => match n with
     | 0 => some "PermissionError: [Errno 13] Permission denied"
     | _ => none⟩

/-- Detect-side oracle where the first unlink raises an I/O error and the
retry succeeds (C7 witness). -/
def envC7w : DetectEnv :=
  ⟨none, none, none, none, "reply", fun _ => some Json.null,
   fun n => match n with
     | 0 => some "OSError: [Errno 5] Input/output error"
     | _ => none⟩

/-- Detect-side oracle where upstream returns the bare JSON number 3
(C8 witness). -/
def envC8w : DetectEnv :=
  ⟨none, none, none, none, "3", fun _ => some (Json.num 3), fun _ => none⟩

/-- Analyze-side oracle where upstream is never reached (C10 witness). -/
def envC10w : AnalyzeEnv := ⟨none, none, "", fun _ => none⟩

/-- The flat error contract of the spec: the handler answered with a
response that is either a 200 or a 500 whose body is \x7b"error": message\x7d. -/
def okOrFlatError (o : HandlerOutcome) : Prop :=
  ∃ r, o = HandlerOutcome.response r
    ∧ (r.status = 200 ∨ (r.status = 500 ∧ ∃ m, r.body = errBody m))

/-- C1: at the /analyze body \x7b"materials": ["plastic"]\x7d, which misses the
key object, the code does not return the claimed 400 with the fixed detail:
the HTTPException(400) raised by the validation on line 98 is caught by the
handler's own except Exception on line 160, so the caller receives 500 with
\x7b"error": str(e)\x7d; no upstream generation call is made. -/
theorem C1_missing_key_returns_500_not_400 :
    (analyze_object [("materials", Json.arr [Json.str "plastic"])] envC1).response
        = ⟨500, errBody (strHTTPException 400 invalidInputDetail)⟩
      ∧ (analyze_object [("materials", Json.arr [Json.str "plastic"])] envC1).promptSent
          = none :=
  ⟨rfl, rfl⟩

/-- C2 counterexample: when the OS refuses to unlink the temp path (both
the unlink on line 78 and the retry on line 90 raise OSError), the /detect
handler exits with the temporary file still on disk and zero successful
removals, contradicting removal exactly once on every exit path. -/
theorem C2_counterexample :
    (detect_object envC2cex).fs.tempExists = true
      ∧ (detect_object envC2cex).fs.removals = 0
      ∧ (detect_object envC2cex).outcome
          = HandlerOutcome.raised "PermissionError: [Errno 13] Permission denied" :=
  ⟨rfl, rfl, rfl⟩

/-- C2 amended: provided the staging copy into the temp file succeeds and
every os.unlink call on the existing file succeeds, the temp file is
removed exactly once on every exit path of the /detect handler (normal
completion, JSON parse failure, or any exception) and does not exist on the
filesystem after the request completes. -/
theorem C2_amended_temp_removed_exactly_once (env : DetectEnv)
    (hstage : env.stageError = none)
    (hunlink : ∀ n, env.unlinkOutcome n = none) :
    (detect_object env).fs.removals = 1 ∧ (detect_object env).fs.tempExists = false := by
  have h0 := hunlink 0
  rcases hu : env.uploadError with _ | e
  · rcases hg : env.generateError with _ | e
    · rcases ht : env.textError with _ | e
      · rcases hj : env.jsonLoads env.responseText with _ | j <;>
          simp [detect_object, detectExcept, osUnlink, hstage, hu, hg, ht, hj, h0]
      · simp [detect_object, detectExcept, osUnlink, hstage, hu, hg, ht, h0]
    · simp [detect_object, detectExcept, osUnlink, hstage, hu, hg, h0]
  · simp [detect_object, detectExcept, osUnlink, hstage, hu, h0]

/-- C2 amended, witness: a run in which everything succeeds removes the
file exactly once and leaves it nonexistent. -/
theorem C2_amended_witness :
    (detect_object envC2w).fs.removals = 1 ∧ (detect_object envC2w).fs.tempExists = false :=
  C2_amended_temp_removed_exactly_once envC2w rfl (fun _ => rfl)

/-- C3 counterexample: the upstream reply is syntactically valid JSON with
the keys object and materials (the bottle JSON), yet the endpoint does not
return 200 with that value: the unlink on line 78 raises before json.loads
is ever reached, the generic except catches it, the retry unlink on line 90
succeeds, and the caller receives 500 with the unlink error as the body. -/
theorem C3_counterexample :
    (detect_object envC3cex).outcome
      = HandlerOutcome.response
          ⟨500, errBody "OSError: [Errno 16] Device or resource busy"⟩ :=
  rfl

/-- C3 amended: whenever the upstream reply of a /detect request parses as
JSON carrying the keys object and materials, and the handler's line-78
unlink of the temp file succeeds (with staging, upload, generation and the
response.text access raising nothing), the handler returns 200 with exactly
that parsed value as the body: pass-through, no coercion, no mutation. -/
theorem C3_detect_pass_through (env : DetectEnv) (j : Json)
    (hstage : env.stageError = none)
    (hupload : env.uploadError = none)
    (hgen : env.generateError = none)
    (htext : env.textError = none)
    (hunlink : env.unlinkOutcome 0 = none)
    (hparse : env.jsonLoads env.responseText = some j)
    (hobj : j.hasKey "object" = true)
    (hmat : j.hasKey "materials" = true) :
    (detect_object env).outcome = HandlerOutcome.response ⟨200, j⟩ := by
  simp [detect_object, osUnlink, hstage, hupload, hgen, htext, hunlink, hparse]

/-- C3 amended, witness: the spec scenario, upstream replies with the
bottle JSON, every OS call succeeds, and the response is 200 with that
exact structure. -/
theorem C3_witness :
    (detect_object envC3w).outcome = HandlerOutcome.response ⟨200, bottleJson⟩ :=
  C3_detect_pass_through envC3w bottleJson rfl rfl rfl rfl rfl rfl rfl rfl

/-- C4: whenever an /analyze request has both required keys, the prompt is
built without error, and the upstream reply parses as JSON, the handler
returns 200 whose body equals the parsed upstream JSON exactly. -/
theorem C4_analyze_pass_through (object_data : List (String × Json)) (env : AnalyzeEnv)
    (j : Json) (joined : String)
    (hkeys : requiredKeysPresent object_data = true)
    (hjoin : pyJoin ", " (dictGet object_data "materials") = Except.ok joined)
    (hgen : env.generateError = none)
    (htext : env.textError = none)
    (hparse : env.jsonLoads env.responseText = some j) :
    (analyze_object object_data env).response = ⟨200, j⟩ := by
  simp [analyze_object, analyzeRest, hkeys, hjoin, hgen, htext, hparse]

/-- C4 witness: the spec scenario body with a well-formed nested upstream
reply comes back verbatim with status 200. -/
theorem C4_witness :
    (analyze_object
        [("object", Json.str "bottle"), ("materials", Json.arr [Json.str "plastic"])]
        envC4w).response = ⟨200, impactJson⟩ :=
  C4_analyze_pass_through _ envC4w impactJson "plastic" rfl rfl rfl rfl rfl

/-- C5 counterexample: the upstream reply is text that is not valid JSON,
yet the response body is not the claimed fixed constant: the unlink on
line 78 raises before json.loads is ever reached, the generic except
catches it, the retry unlink on line 90 succeeds, and the caller receives
500 with the unlink error message as the body instead. -/
theorem C5_counterexample :
    (detect_object envC5cex).outcome
      = HandlerOutcome.response
          ⟨500, errBody "OSError: [Errno 30] Read-only file system"⟩ :=
  rfl

/-- C5 amended: whenever the upstream reply of a /detect request is text
that does not parse as JSON, and the handler's line-78 unlink of the temp
file succeeds (with staging, upload, generation and the response.text
access raising nothing), the handler returns 500 with exactly the fixed
body \x7b"error": "Invalid JSON format in response"\x7d; the reply text
(universally quantified and otherwise unconstrained here) does not occur in
the response, whose body is this closed constant. -/
theorem C5_detect_parse_failure_fixed_500 (env : DetectEnv)
    (hstage : env.stageError = none)
    (hupload : env.uploadError = none)
    (hgen : env.generateError = none)
    (htext : env.textError = none)
    (hunlink : env.unlinkOutcome 0 = none)
    (hparse : env.jsonLoads env.responseText = none) :
    (detect_object env).outcome
      = HandlerOutcome.response ⟨500, errBody "Invalid JSON format in response"⟩ := by
  simp [detect_object, osUnlink, hstage, hupload, hgen, htext, hunlink, hparse]

/-- C5 amended, witness: a run whose upstream reply is not JSON and whose
unlink succeeds produces the fixed 500 error body. -/
theorem C5_witness :
    (detect_object envC5w).outcome
      = HandlerOutcome.response ⟨500, errBody "Invalid JSON format in response"⟩ :=
  C5_detect_parse_failure_fixed_500 envC5w rfl rfl rfl rfl rfl rfl

/-- C6 counterexample: when the temp file has already been unlinked
(line 78) and reading response.text then raises (a ValueError, which the
inner except on line 84 does not catch), the except block's second unlink
(line 90) raises FileNotFoundError, which escapes the handler: the failure
is not converted to a 500 \x7b"error": message\x7d response. -/
theorem C6_counterexample :
    (detect_object envC6cex).outcome
      = HandlerOutcome.raised "FileNotFoundError: [Errno 2] No such file or directory" :=
  rfl

/-- C6 amended: every failure raised inside the try block by the upstream
upload or generation call, and every JSON parse failure, is converted to a
500 response with body \x7b"error": message\x7d (success gives a 200), provided
the staging copy succeeds, the handler's own unlink calls succeed, and no
exception is raised after the temp file is already gone (the response.text
accessor); failures outside those provisos escape the handler instead. -/
theorem C6_amended_try_failures_collapse_to_500 (env : DetectEnv)
    (hstage : env.stageError = none)
    (htext : env.textError = none)
    (hunlink : ∀ n, env.unlinkOutcome n = none) :
    okOrFlatError (detect_object env).outcome := by
  have h0 := hunlink 0
  rcases hu : env.uploadError with _ | e
  · rcases hg : env.generateError with _ | e
    · rcases hj : env.jsonLoads env.responseText with _ | j
      · refine ⟨⟨500, errBody "Invalid JSON format in response"⟩, ?_, Or.inr ⟨rfl, _, rfl⟩⟩
        simp [detect_object, osUnlink, hstage, hu, hg, htext, hj, h0]
      · refine ⟨⟨200, j⟩, ?_, Or.inl rfl⟩
        simp [detect_object, osUnlink, hstage, hu, hg, htext, hj, h0]
    · refine ⟨⟨500, errBody e⟩, ?_, Or.inr ⟨rfl, e, rfl⟩⟩
      simp [detect_object, detectExcept, osUnlink, hstage, hu, hg, h0]
  · refine ⟨⟨500, errBody e⟩, ?_, Or.inr ⟨rfl, e, rfl⟩⟩
    simp [detect_object, detectExcept, osUnlink, hstage, hu, h0]

/-- C6 amended, witness: an upstream upload failure is converted to the
flat 500 error shape. -/
theorem C6_amended_witness : okOrFlatError (detect_object envC6w).outcome :=
  C6_amended_try_failures_collapse_to_500 envC6w rfl rfl (fun _ => rfl)

/-- C7 counterexample: when the unlink on line 78 raises and the retry in
the except block succeeds, the caller receives 500 with the unlink
failure's own message as \x7b"error": str(e)\x7d: the cleanup failure is
surfaced as a user-facing error, not silently ignored. -/
theorem C7_counterexample :
    (detect_object envC7cex).outcome
      = HandlerOutcome.response
          ⟨500, errBody "PermissionError: [Errno 13] Permission denied"⟩ :=
  rfl

/-- C7 amended: a failure of the success-path unlink (line 78) is caught by
the generic except handler and surfaced to the caller as a 500 response
whose error body is the unlink exception's message (when the retry unlink
on line 90 succeeds; if the retry also raises, the exception escapes the
handler): cleanup is not best-effort and its failures are not ignored. -/
theorem C7_amended_unlink_failure_surfaces (env : DetectEnv) (e : String)
    (hstage : env.stageError = none)
    (hupload : env.uploadError = none)
    (hgen : env.generateError = none)
    (h0 : env.unlinkOutcome 0 = some e)
    (h1 : env.unlinkOutcome 1 = none) :
    (detect_object env).outcome = HandlerOutcome.response ⟨500, errBody e⟩ := by
  simp [detect_object, detectExcept, osUnlink, hstage, hupload, hgen, h0, h1]

/-- C7 amended, witness: a transient I/O error of the first unlink becomes
the caller-visible 500 error body. -/
theorem C7_amended_witness :
    (detect_object envC7w).outcome
      = HandlerOutcome.response ⟨500, errBody "OSError: [Errno 5] Input/output error"⟩ :=
  C7_amended_unlink_failure_surfaces envC7w "OSError: [Errno 5] Input/output error"
    rfl rfl rfl rfl rfl

/-- C8: whenever the upstream reply of a /detect request parses as JSON at
all, the parsed value is returned with 200 regardless of its shape: no
check for the keys object and materials is made on this path. -/
theorem C8_detect_no_shape_check (env : DetectEnv) (j : Json)
    (hstage : env.stageError = none)
    (hupload : env.uploadError = none)
    (hgen : env.generateError = none)
    (htext : env.textError = none)
    (hunlink : env.unlinkOutcome 0 = none)
    (hparse : env.jsonLoads env.responseText = some j) :
    (detect_object env).outcome = HandlerOutcome.response ⟨200, j⟩ := by
  simp [detect_object, osUnlink, hstage, hupload, hgen, htext, hunlink, hparse]

/-- C8 witness: the bare JSON number 3 is passed through as the 200 body. -/
theorem C8_witness :
    (detect_object envC8w).outcome = HandlerOutcome.response ⟨200, Json.num 3⟩ :=
  C8_detect_no_shape_check envC8w (Json.num 3) rfl rfl rfl rfl rfl rfl

/-- C9: with both keys present the /analyze validation passes regardless of
the values' types (it checks key presence only); in particular materials
given as a plain string is accepted, iterated character by character, and
those characters are joined with ", " into the prompt sent upstream. -/
theorem C9_string_materials_accepted_chars_joined
    (objVal : Json) (s : String) (env : AnalyzeEnv) :
    (analyze_object [("object", objVal), ("materials", Json.str s)] env).promptSent
      = some (analyze_prompt (pyStr objVal)
          (String.intercalate ", " (s.data.map (fun c => String.singleton c)))) :=
  rfl

/-- C10: whenever an /analyze request has both required keys but the value
of materials cannot be joined as a sequence of strings, the handler returns
500 with body \x7b"error": message\x7d (not a 400 validation error) and no
upstream generation call is made. -/
theorem C10_unjoinable_materials_500_no_upstream_call
    (object_data : List (String × Json)) (env : AnalyzeEnv) (e : String)
    (hkeys : requiredKeysPresent object_data = true)
    (hjoin : pyJoin ", " (dictGet object_data "materials") = Except.error e) :
    (analyze_object object_data env).response = ⟨500, errBody e⟩
      ∧ (analyze_object object_data env).promptSent = none := by
  constructor <;> simp [analyze_object, hkeys, hjoin]

/-- C10 witness: materials given as the number 5 yields the TypeError
message as a 500 error body with no prompt sent upstream. -/
theorem C10_witness :
    (analyze_object [("object", Json.str "bottle"), ("materials", Json.num 5)] envC10w).response
        = ⟨500, errBody "TypeError: can only join an iterable"⟩
      ∧ (analyze_object [("object", Json.str "bottle"), ("materials", Json.num 5)] envC10w).promptSent
          = none :=
  C10_unjoinable_materials_500_no_upstream_call _ envC10w _ rfl rfl
